import Mathlib

/-!
Verification of the data-assembly and validation pipeline of
`convert_to_json.py` (a one-shot offline data packager).

The Python program reads a fixed set of optional inputs (per-language job-name
arrays, job codes, a PCA weight matrix, a scaled-feature matrix, two auxiliary
dictionaries, a tab-separated question table, three tab-separated norm/weight
tables, and a fitted scaler), assembles one nested document, writes it as a
full JSON file, validates lengths, and then derives a compact JSON file by
re-reading the full file.

The embedding below models:
 - each input as `Input α` (absent / malformed / ok), since the loaders
   distinguish `FileNotFoundError` (degrade to a default) from any other
   exception (propagates to the top-level handler of `convert_all_data`);
 - every loader as a function returning `Option` (`none` models an uncaught
   exception escaping the loader);
 - the assembled document as the structure `FullDoc`;
 - serialization as `dumpFullDoc : FullDoc → Json`, the JSON tree that
   `json.dump` writes and `json.load` reads back (Python int dict keys are
   stringified by `json.dump`, which `dumpFullDoc` performs explicitly);
 - the compact derivation `createCompact : Json → Json`, operating on the
   re-read JSON of the full file exactly as `create_compact_version` does;
 - the `__main__` control flow as `mainRun`, which attempts the compact step
   only when `convert_all_data` returned a truthy output file.

Numeric cell values (floats in the source) are never computed with by the
pipeline, only moved; they are carried as `Rat` payloads.
-/

namespace ConvertToJson

/-- A JSON tree, the common value shape of the Python dicts/lists the program
passes around and of the files it writes. -/
inductive Json : Type where
  | null : Json
  | bool : Bool → Json
  | num : Rat → Json
  | str : String → Json
  | arr : List Json → Json
  | obj : List (String × Json) → Json

/-- State of one named input on disk: missing file, present-but-unparsable, or
present with a parsed value. -/
inductive Input (α : Type) : Type where
  | absent : Input α
  | malformed : Input α
  | ok : α → Input α

/-- True unless the input is malformed (i.e. the states a
`except FileNotFoundError` handler can cope with). -/
def Input.okb {α : Type} : Input α → Bool
  | .malformed => false
  | _ => true

/-- Total default-substitution: the value when present, else the default.
Used to describe loader results on non-malformed inputs. -/
def Input.orD {α : Type} : Input α → α → α
  | .ok v, _ => v
  | _, d => d

/-- A loader guarded by `try ... except FileNotFoundError`: a missing file
degrades to the default, a parse error escapes (`none`), a present file
yields its value (`np.load(...).tolist()` in the source). -/
def loadOrDefault {α : Type} : Input α → α → Option α
  | .absent, d => some d
  | .malformed, _ => none
  | .ok v, _ => some v

/-- A parsed tab-separated table as pandas exposes it: a header of column
names and rows of cells, a missing cell (`NaN`) being `none`. Every column
extracted from a DataFrame has exactly `rows.length` entries. -/
structure Table : Type where
  header : List String
  rows : List (List (Option String))

/-- Index of a column by case-sensitively matching header name
(`lang in df.columns` / `df[lang]`). -/
def Table.colIdx (t : Table) (n : String) : Option Nat :=
  t.header.findIdx? (· == n)

/-- Whether the table has a column named `n`. -/
def Table.hasCol (t : Table) (n : String) : Bool :=
  (t.colIdx n).isSome

/-- The cells of column `n` after `fillna('').astype(str)`: missing cells
become the empty string; `[]` if the column does not exist (unreached in the
source, which tests membership first). -/
def Table.colD (t : Table) (n : String) : List String :=
  match t.colIdx n with
  | some i => t.rows.map (fun r => (r.getD i none).getD "")
  | none => []

/-- The optional attributes the scaler object may expose
(`hasattr(scaler, 'mean_')` etc. in `load_scaler`). -/
structure ScalerAttrs : Type where
  mean : Option (List Rat)
  scale : Option (List Rat)
  var : Option (List Rat)
  n_samples_seen : Option Int

/-- The scaler parameter record `load_scaler` builds when the pickle file is
present; `feature_names` is a fixed constant added at dump time. -/
structure ScalerRec : Type where
  mean : List Rat
  scale : List Rat
  var : List Rat
  n_samples_seen : Int

/-- The on-disk state of every input the program reads, plus whether writing
the full output file succeeds and the generation timestamp. -/
structure Env : Type where
  job_en : Input (List String)
  job_zh : Input (List String)
  job_es : Input (List String)
  job_fr : Input (List String)
  job_ru : Input (List String)
  job_ar : Input (List String)
  job_codes : Input (List String)
  pca_weights : Input (List (List Rat))
  scaled_features : Input (List (List Rat))
  text_dict : Input Json
  language_display : Input Json
  questions : Input Table
  meanNorms : Input (List (Int × List Rat))
  sdNorms : Input (List (Int × List Rat))
  weightsB5 : Input (List (List Rat))
  scaler : Input ScalerAttrs
  writeOk : Bool
  timestamp : String

/-- The fixed language list `['en', 'zh', 'es', 'fr', 'ru', 'ar']`. -/
def languages : List String := ["en", "zh", "es", "fr", "ru", "ar"]

/-- The fixed five trait labels. -/
def featureNames : List String :=
  ["Neuroticism", "Extraversion", "Openness", "Agreeableness", "Conscientiousness"]

/-- `load_multilingual_jobs`: one `try np.load except FileNotFoundError`
per language, in the fixed language order; a missing file contributes `[]`,
any other load error escapes. -/
def load_multilingual_jobs (env : Env) : Option (List (String × List String)) :=
  (loadOrDefault env.job_en []).bind fun en =>
  (loadOrDefault env.job_zh []).bind fun zh =>
  (loadOrDefault env.job_es []).bind fun es =>
  (loadOrDefault env.job_fr []).bind fun fr =>
  (loadOrDefault env.job_ru []).bind fun ru =>
  (loadOrDefault env.job_ar []).bind fun ar =>
  some [("en", en), ("zh", zh), ("es", es), ("fr", fr), ("ru", ru), ("ar", ar)]

/-- `load_base_job_data`: job codes, PCA weights and scaled features, each
with its own missing-file handler. -/
def load_base_job_data (env : Env) :
    Option (List String × List (List Rat) × List (List Rat)) :=
  (loadOrDefault env.job_codes []).bind fun codes =>
  (loadOrDefault env.pca_weights []).bind fun pca =>
  (loadOrDefault env.scaled_features []).bind fun feats =>
  some (codes, pca, feats)

/-- `load_other_files`: the two auxiliary mappings are guarded by a bare
`except:`, so every failure (missing or malformed) degrades to `{}`. -/
def load_other_files (env : Env) : Json × Json :=
  (env.text_dict.orD (Json.obj []), env.language_display.orD (Json.obj []))

/-- The per-language body of the `load_questions` loop: use the language's own
column when present, otherwise fall back to the English column; accessing a
missing English column raises (`KeyError`), modeled as `none`. -/
def loadQEntries (t : Table) : List String → Option (List (String × List String))
  | [] => some []
  | lang :: rest =>
      (if t.hasCol lang then some (t.colD lang)
       else if t.hasCol "en" then some (t.colD "en") else none).bind fun q =>
      (loadQEntries t rest).map (fun tail => (lang, q) :: tail)

/-- `load_questions`: a missing `questions.tsv` yields `({}, 0)`; a parse
error escapes; otherwise one sequence per supported language (with English
fallback) together with the table's row count and the list of languages that
fell back (each logged with a warning in the source). -/
def load_questions (env : Env) :
    Option (List (String × List String) × Nat × List String) :=
  match env.questions with
  | .absent => some ([], 0, [])
  | .malformed => none
  | .ok t =>
      (loadQEntries t languages).map
        (fun qs => (qs, t.rows.length, languages.filter (fun l => !(t.hasCol l))))

/-- Python dict assignment `d[k] = v`: overwrite in place when the key exists,
else append. -/
def dictInsert (d : List (Int × List Rat)) (k : Int) (v : List Rat) :
    List (Int × List Rat) :=
  if d.any (fun p => p.1 == k) then
    d.map (fun p => if p.1 == k then (k, v) else p)
  else d ++ [(k, v)]

/-- The row loop of `convert_tsv_files` for `meanNorms.tsv` / `sdNorms.tsv`:
`mean_norms_json[int(row['group'])] = row[1:].tolist()`. -/
def buildNormDict (rows : List (Int × List Rat)) : List (Int × List Rat) :=
  rows.foldl (fun acc r => dictInsert acc r.1 r.2) []

/-- One norm-table load: missing file degrades to `{}`, parse error escapes,
otherwise the group-keyed dict is built. -/
def loadNorms : Input (List (Int × List Rat)) → Option (List (Int × List Rat))
  | .absent => some []
  | .malformed => none
  | .ok rows => some (buildNormDict rows)

/-- The `weightsB5.tsv` load: missing file degrades to `[]`, parse error
escapes, otherwise `weights.values.tolist()`. -/
def loadWeights : Input (List (List Rat)) → Option (List (List Rat))
  | .absent => some []
  | .malformed => none
  | .ok w => some w

/-- `convert_tsv_files`: the three tab-separated tables, each guarded only by
`except FileNotFoundError`. -/
def convert_tsv_files (env : Env) :
    Option (List (Int × List Rat) × List (Int × List Rat) × List (List Rat)) :=
  (loadNorms env.meanNorms).bind fun mn =>
  (loadNorms env.sdNorms).bind fun sdn =>
  (loadWeights env.weightsB5).bind fun w =>
  some (mn, sdn, w)

/-- `load_scaler`: a missing pickle yields `{}` (modeled `none`); an
unpickling error escapes; otherwise each optional attribute is taken when
present, with `[]`/`0` defaults. -/
def load_scaler (env : Env) : Option (Option ScalerRec) :=
  match env.scaler with
  | .absent => some none
  | .malformed => none
  | .ok a =>
      some (some { mean := a.mean.getD [], scale := a.scale.getD [],
                   var := a.var.getD [], n_samples_seen := a.n_samples_seen.getD 0 })

/-- The fixed `model_info` descriptor of `get_metadata`. -/
structure ModelInfo : Type where
  name : String
  input_dim : Nat
  hidden_dim : Nat
  output_dim : Nat

/-- The literal `model_info` value. -/
def modelInfo : ModelInfo :=
  { name := "JobRecommenderMLP", input_dim := 5, hidden_dim := 128, output_dim := 263 }

/-- The fixed provenance list of `get_metadata`. -/
def dataSources : List String :=
  ["job_en.npy, job_zh.npy, job_es.npy, job_fr.npy, job_ru.npy, job_ar.npy",
   "job_codes.npy",
   "scaled_job_features.npy",
   "pca_weights.npy",
   "meanNorms.tsv",
   "sdNorms.tsv",
   "questions.tsv",
   "weightsB5.tsv",
   "your_scaler.pkl"]

/-- The `metadata` block after the assembler's merge
`{**get_metadata(), "n_jobs": ..., "n_questions": ..., "languages_available": ...}`:
the static `n_jobs: 263` placeholder is overridden in place, and the two new
keys are appended, so the key order is as listed here. -/
structure Metadata : Type where
  version : String
  created_at : String
  data_sources : List String
  languages_supported : List String
  n_jobs : Nat
  model_info : ModelInfo
  n_questions : Nat
  languages_available : List String

/-- The `titles` block of `get_translation_texts`. -/
def titlesJson : Json := Json.obj [
  ("en", Json.str "Your Big Five Personality Profile (T scores)"),
  ("zh", Json.str "你的大五人格雷达图（T分）"),
  ("es", Json.str "Tu Perfil de Personalidad Big Five (Puntajes T)"),
  ("fr", Json.str "Votre profil de personnalité Big Five (scores T)"),
  ("ru", Json.str "Ваш профиль личности по Big Five (T-баллы)"),
  ("ar", Json.str "ملف الشخصية الخاص بك (Big Five) بدرجات T")]

/-- The `trait_names` block of `get_translation_texts`. -/
def traitNamesJson : Json := Json.obj [
  ("en", Json.arr [Json.str "Neuroticism", Json.str "Extraversion", Json.str "Openness",
    Json.str "Agreeableness", Json.str "Conscientiousness"]),
  ("zh", Json.arr [Json.str "神经质", Json.str "外向性", Json.str "开放性",
    Json.str "宜人性", Json.str "尽责性"]),
  ("es", Json.arr [Json.str "Neuroticismo", Json.str "Extraversión", Json.str "Apertura",
    Json.str "Amabilidad", Json.str "Conciencia"]),
  ("fr", Json.arr [Json.str "Névrosisme", Json.str "Extraversion", Json.str "Ouverture",
    Json.str "Amabilité", Json.str "Conscienciosité"]),
  ("ru", Json.arr [Json.str "Невротизм", Json.str "Экстраверсия", Json.str "Открытость",
    Json.str "Доброжелательность", Json.str "Сознательность"]),
  ("ar", Json.arr [Json.str "الضيق العصبي", Json.str "الانفتاح", Json.str "الانبساطية",
    Json.str "التعاطف", Json.str "الضمير المهني"])]

/-- The `disclaimer` block of `get_translation_texts` (verbatim payload,
including its mixed-language oddities; apostrophes written `\x27`). -/
def disclaimerJson : Json := Json.obj [
  ("en", Json.str "The career recommendations provided here are for your reference only. It\x27s important to consider your personal circumstances, preferences, and goals when making a career decision. We encourage you to explore different options and take the time to evaluate each one carefully. May you find a fulfilling and rewarding career that aligns with your values and aspirations. Best of luck on your journey to success! 😊"),
  ("zh", Json.str "这里提供的职业推荐仅供参考。在做出职业选择时，请务必考虑您的个人情况、兴趣和目标。我们鼓励您探索不同的职业选项，并仔细评估每一个选择。希望您能够找到一个符合自己价值观和人生目标的理想职业，祝您在职业生涯中取得圆满成功！😊"),
  ("es", Json.str "Las recomendaciones de carrera proporcionadas aquí son solo para su referencia. Es importante tener en cuenta sus circunstancias personales, preferencias y objetivos al tomar una decisión sobre su carrera. Le animamos a explorar diferentes opciones y tomarse el tiempo necesario para evaluar cada una de ellas con cuidado. ¡Le deseamos mucho éxito en su camino hacia una carrera gratificante y satisfactoria! 😊"),
  ("fr", Json.str "Les recomendaciones de carrière fournies aquí son uniquement à titre de référence. Il est important de prendre en compte vos circonstances personnelles, vos préférences et vos objectifs lorsque vous prenez una décision concernant votre carrière. Nous vous encourageons à explorer diferentes opciones et à prendre le temps d\x27évaluer cada choix avec soin. Nous vous souhaitons de trouver une carrière épanouissante et gratifiante qui corresponde à vos valeurs et aspirations. Bonne chance dans votre parcours vers le succès ! 😊"),
  ("ru", Json.str "Предоставленные рекомендации по карьере предназначены только для вашего ознакомления. Важно учитывать ваши личные обстоятельства, предпочтения и цели при принятии решения о карьере. Мы призываем вас исследовать различные варианты и уделять достаточно времени на тщательную оценку каждого из них. Желаем вам найти карьеру, которая будет соответствовать вашим ценностям и устремлениям, и успешного пути к успеху! 😊"),
  ("ar", Json.str "التوصيات المهنية المقدمة здесь предназначены только для справки. Важно учитывать ваши личные обстоятельства, предпочтения и цели при принятии решения о карьере. Мы призываем вас исследовать различные варианты и уделять достаточно времени на тщательную оценку каждого из них. Желаем вам найти карьеру, которая будет соответствовать вашим ценностям и устремлениям, и успешного пути к успеху! 😊")]

/-- The remaining text blocks of `get_translation_texts` (the templated
message's positional placeholder is written `\x7b\x7d`). -/
def promptTextsJson : List (String × Json) := [
  ("ideal_job_prompt", Json.obj [
    ("en", Json.str "Please enter your ideal career (e.g., Data Scientist):"),
    ("zh", Json.str "请输入您的理想职业（例如：数据科学家）："),
    ("es", Json.str "Por favor, introduzca su carrera ideal (por ejemplo: Científico de datos):"),
    ("fr", Json.str "Veuillez saisir votre métier idéal (par exemple : Data Scientist) :"),
    ("ru", Json.str "Пожалуйста, введите вашу идеальную профессию (например: специалист по данным):"),
    ("ar", Json.str "يرجى إدخال مهنتك المثالية (مثال: عالم بيانات):")]),
  ("ideal_job_warning", Json.obj [
    ("en", Json.str "⚠️ Please enter your ideal career."),
    ("zh", Json.str "⚠️ 请输入您的理想职业。"),
    ("es", Json.str "⚠️ Por favor, introduzca su carrera ideal."),
    ("fr", Json.str "⚠️ Veuillez saisir votre métier idéal."),
    ("ru", Json.str "⚠️ Пожалуйста, введите вашу идеальную профессию."),
    ("ar", Json.str "⚠️ يرجى إدخال مهنتك المثالية.")]),
  ("ideal_job_result", Json.obj [
    ("en", Json.str "The career closest to your ideal is: **\x7b\x7d**"),
    ("zh", Json.str "您的理想职业最相近的是：**\x7b\x7d**"),
    ("es", Json.str "La carrera más cercana a su ideal es: **\x7b\x7d**"),
    ("fr", Json.str "Le métier le plus proche de votre idéal est : **\x7b\x7d**"),
    ("ru", Json.str "Самая близкая к вашей идеальной профессия: **\x7b\x7d**"),
    ("ar", Json.str "أقرب مهنة к вашей идеальной профессии: **\x7b\x7d**")]),
  ("closest_text", Json.obj [
    ("en", Json.str "Your trait closest to the ideal career:"),
    ("zh", Json.str "与理想职业特征最接近的是："),
    ("es", Json.str "Tu rasgo más cercano al trabajo ideal:"),
    ("fr", Json.str "Votre trait le plus proche du métier idéal :"),
    ("ru", Json.str "Ваша черта, наиболее близкая к идеальной профессии:"),
    ("ar", Json.str "سمتك الأقرب إلى المهنة المثالية:")]),
  ("furthest_text", Json.obj [
    ("en", Json.str "Your trait furthest from the ideal career:"),
    ("zh", Json.str "与理想职业特征差距最大的是："),
    ("es", Json.str "Tu rasgo más alejado del trabajo ideal:"),
    ("fr", Json.str "Votre trait le plus éloigné du métier idéal :"),
    ("ru", Json.str "Ваша черта, наиболее далёкая от идеальной профессии:"),
    ("ar", Json.str "سمتك الأبعد عن المهنة المثالية:")])]

/-- `get_translation_texts()`: the static per-language text registry, pure
immutable data, in the source's key order. -/
def translationTexts : Json :=
  Json.obj ([("titles", titlesJson), ("trait_names", traitNamesJson),
    ("disclaimer", disclaimerJson)] ++ promptTextsJson)

/-- The assembled document `complete_data`, with fields in the exact key
order of the dict literal in `convert_all_data` (the `**other_data` and
`**tsv_data` splices expand in their own insertion order). `norm_groups` and
`translations` are fixed data attached at dump time / assembly time. -/
structure FullDoc : Type where
  job_translations : List (String × List String)
  job_codes : List String
  pca_weights : List (List Rat)
  scaled_features : List (List Rat)
  job_names : List String
  text_dict : Json
  language_display : Json
  questions : List (String × List String)
  mean_norms : List (Int × List Rat)
  sd_norms : List (Int × List Rat)
  weights : List (List Rat)
  scaler_params : Option ScalerRec
  translations : Json
  metadata : Metadata

/-- The dict-building step of `convert_all_data` (step 8 of the source):
merges all loader outputs into `complete_data`, recomputing `n_jobs`,
`n_questions` and `languages_available` from the merged data. -/
def assemble (env : Env) (jt : List (String × List String))
    (bd : List String × List (List Rat) × List (List Rat))
    (q : List (String × List String) × Nat × List String)
    (tsv : List (Int × List Rat) × List (Int × List Rat) × List (List Rat))
    (sp : Option ScalerRec) : FullDoc :=
  { job_translations := jt,
    job_codes := bd.1,
    pca_weights := bd.2.1,
    scaled_features := bd.2.2,
    job_names := (jt.lookup "en").getD [],
    text_dict := (load_other_files env).1,
    language_display := (load_other_files env).2,
    questions := q.1,
    mean_norms := tsv.1,
    sd_norms := tsv.2.1,
    weights := tsv.2.2,
    scaler_params := sp,
    translations := translationTexts,
    metadata := { version := "2.0.0",
                  created_at := env.timestamp,
                  data_sources := dataSources,
                  languages_supported := languages,
                  n_jobs := ((jt.lookup "en").getD []).length,
                  model_info := modelInfo,
                  n_questions := q.2.1,
                  languages_available := jt.map Prod.fst } }

/-- `convert_all_data`: the whole assembly runs inside one `try`; any
exception escaping a loader, or a failing write of the full output file,
is caught by the top-level handler which prints the traceback and returns
`None` (modeled `none`). On success the assembled (and written) document is
returned. -/
def convert_all_data (env : Env) : Option FullDoc :=
  (load_multilingual_jobs env).bind fun jt =>
  (load_base_job_data env).bind fun bd =>
  (load_questions env).bind fun q =>
  (convert_tsv_files env).bind fun tsv =>
  (load_scaler env).bind fun sp =>
  if env.writeOk then some (assemble env jt bd q tsv sp) else none

/-- A list-of-lists of numbers as a JSON matrix. -/
def matJson (m : List (List Rat)) : Json :=
  Json.arr (m.map (fun r => Json.arr (r.map Json.num)))

/-- The `scaler_params` field as serialized: `{}` when the pickle was
missing, else the four attribute fields plus the fixed `feature_names`. -/
def scalerJson : Option ScalerRec → Json
  | none => Json.obj []
  | some r => Json.obj [
      ("mean", Json.arr (r.mean.map Json.num)),
      ("scale", Json.arr (r.scale.map Json.num)),
      ("var", Json.arr (r.var.map Json.num)),
      ("n_samples_seen", Json.num (r.n_samples_seen : Rat)),
      ("feature_names", Json.arr (featureNames.map Json.str))]

/-- The fixed `norm_groups` block (Python int keys 1..4 become JSON string
keys when dumped). -/
def normGroupsJson : Json := Json.obj [
  ("1", Json.obj [("gender", Json.str "Female"), ("age_range", Json.str "<35"),
    ("description", Json.str "Female under 35")]),
  ("2", Json.obj [("gender", Json.str "Female"), ("age_range", Json.str ">=35"),
    ("description", Json.str "Female 35 and over")]),
  ("3", Json.obj [("gender", Json.str "Male"), ("age_range", Json.str "<35"),
    ("description", Json.str "Male under 35")]),
  ("4", Json.obj [("gender", Json.str "Male"), ("age_range", Json.str ">=35"),
    ("description", Json.str "Male 35 and over")])]

/-- The `metadata` block as serialized, in merged key order. -/
def metaJson (m : Metadata) : Json := Json.obj [
  ("version", Json.str m.version),
  ("created_at", Json.str m.created_at),
  ("data_sources", Json.arr (m.data_sources.map Json.str)),
  ("languages_supported", Json.arr (m.languages_supported.map Json.str)),
  ("n_jobs", Json.num (m.n_jobs : Rat)),
  ("model_info", Json.obj [
    ("name", Json.str m.model_info.name),
    ("input_dim", Json.num (m.model_info.input_dim : Rat)),
    ("hidden_dim", Json.num (m.model_info.hidden_dim : Rat)),
    ("output_dim", Json.num (m.model_info.output_dim : Rat))]),
  ("n_questions", Json.num (m.n_questions : Rat)),
  ("languages_available", Json.arr (m.languages_available.map Json.str))]

/-- The JSON tree of the written full output file
(`json.dump(complete_data, ...)`) — equally, the value `json.load` hands back
to `create_compact_version` when it re-reads `app_data_complete.json`.
Integer dict keys (`mean_norms`, `sd_norms`, `norm_groups`) are stringified
as `json.dump` does. -/
def dumpFullDoc (d : FullDoc) : Json := Json.obj [
  ("job_translations",
    Json.obj (d.job_translations.map (fun p => (p.1, Json.arr (p.2.map Json.str))))),
  ("job_codes", Json.arr (d.job_codes.map Json.str)),
  ("pca_weights", matJson d.pca_weights),
  ("scaled_features", matJson d.scaled_features),
  ("job_names", Json.arr (d.job_names.map Json.str)),
  ("text_dict", d.text_dict),
  ("language_display", d.language_display),
  ("questions",
    Json.obj (d.questions.map (fun p => (p.1, Json.arr (p.2.map Json.str))))),
  ("mean_norms",
    Json.obj (d.mean_norms.map (fun p => (toString p.1, Json.arr (p.2.map Json.num))))),
  ("sd_norms",
    Json.obj (d.sd_norms.map (fun p => (toString p.1, Json.arr (p.2.map Json.num))))),
  ("weights", matJson d.weights),
  ("scaler_params", scalerJson d.scaler_params),
  ("translations", d.translations),
  ("metadata", metaJson d.metadata),
  ("norm_groups", normGroupsJson)]

/-- Python `dict.get(k)` on a parsed JSON object. -/
def Json.get? : Json → String → Option Json
  | .obj fs, k => fs.lookup k
  | _, _ => none

/-- Python `dict.get(k, default)` on a parsed JSON object. -/
def Json.getDf (j : Json) (k : String) (dflt : Json) : Json :=
  (j.get? k).getD dflt

/-- Python `len()` of a parsed JSON array (the only shape it is applied to in
`create_compact_version`). -/
def Json.arrLen : Json → Nat
  | .arr xs => xs.length
  | _ => 0

/-- Python `list(d.keys())` of a parsed JSON object. -/
def Json.objKeys : Json → List String
  | .obj fs => fs.map Prod.fst
  | _ => []

/-- `create_compact_version`'s dict construction: a fixed whitelist of fields
copied verbatim (with defaults) from the re-read full JSON, a trimmed
`translations`, and a recomputed minimal `metadata`. -/
def createCompact (full : Json) : Json := Json.obj [
  ("job_translations", full.getDf "job_translations" (Json.obj [])),
  ("job_codes", full.getDf "job_codes" (Json.arr [])),
  ("scaled_features", full.getDf "scaled_features" (Json.arr [])),
  ("pca_weights", full.getDf "pca_weights" (Json.arr [])),
  ("questions", full.getDf "questions" (Json.obj [])),
  ("mean_norms", full.getDf "mean_norms" (Json.obj [])),
  ("sd_norms", full.getDf "sd_norms" (Json.obj [])),
  ("weights", full.getDf "weights" (Json.arr [])),
  ("scaler_params", full.getDf "scaler_params" (Json.obj [])),
  ("translations", Json.obj [
    ("trait_names", (full.getDf "translations" (Json.obj [])).getDf "trait_names" (Json.obj [])),
    ("disclaimer", (full.getDf "translations" (Json.obj [])).getDf "disclaimer" (Json.obj []))]),
  ("metadata", Json.obj [
    ("n_jobs", Json.num
      ((((full.getDf "job_translations" (Json.obj [])).getDf "en" (Json.arr [])).arrLen : Rat))),
    ("n_questions", Json.num
      ((((full.getDf "questions" (Json.obj [])).getDf "en" (Json.arr [])).arrLen : Rat))),
    ("languages", Json.arr
      ((full.getDf "job_translations" (Json.obj [])).objKeys.map Json.str))])]

/-- Outcome of one whole invocation (`__main__`): the full file's JSON if the
full conversion succeeded, whether the compact step was attempted, and the
compact file's JSON if produced. -/
structure RunResult : Type where
  fullFile : Option Json
  compactAttempted : Bool
  compactFile : Option Json

/-- The `__main__` block: run the full conversion; only when it returned a
truthy output path, run `create_compact_version`, which re-reads the
just-written full JSON file and writes the compact file. -/
def mainRun (env : Env) : RunResult :=
  match convert_all_data env with
  | none => { fullFile := none, compactAttempted := false, compactFile := none }
  | some d =>
      { fullFile := some (dumpFullDoc d),
        compactAttempted := true,
        compactFile := some (createCompact (dumpFullDoc d)) }

/-- `n_jobs` as the validation step of `convert_all_data` recomputes it:
`len(complete_data.get('job_translations', {}).get('en', []))`. -/
def docNJobs (d : FullDoc) : Nat :=
  ((d.job_translations.lookup "en").getD []).length

/-- The job-translations validation line of `convert_all_data`: the single
boolean `all(len(v) == n_jobs for v in complete_data['job_translations'].values())`. -/
def validateJobTranslations (d : FullDoc) : Bool :=
  d.job_translations.all (fun p => p.2.length == docNJobs d)

/-- The job-codes validation line: `len(job_codes) == n_jobs`. -/
def validateJobCodes (d : FullDoc) : Bool :=
  d.job_codes.length == docNJobs d

/-- The scaled-features validation line: `len(scaled_features) == n_jobs`. -/
def validateScaledFeatures (d : FullDoc) : Bool :=
  d.scaled_features.length == docNJobs d

/-- Modelled from the claim's words (for comparison with the source's single
aggregate check): the per-language job-translation report the claim
describes — for every language key, whether that language's list length
equals `N_jobs`. The source emits no such per-language report. -/
def specPerLanguageJobCheck (d : FullDoc) : List (String × Bool) :=
  d.job_translations.map (fun p => (p.1, p.2.length == docNJobs d))

/-- The job-translations mapping a run produces when no job file is
malformed: value of the file when present, `[]` when missing, in the fixed
language order. -/
def jobTranslationsOf (env : Env) : List (String × List String) :=
  [("en", env.job_en.orD []), ("zh", env.job_zh.orD []), ("es", env.job_es.orD []),
   ("fr", env.job_fr.orD []), ("ru", env.job_ru.orD []), ("ar", env.job_ar.orD [])]

/-- The base job data a successful run produces. -/
def baseOf (env : Env) : List String × List (List Rat) × List (List Rat) :=
  (env.job_codes.orD [], env.pca_weights.orD [], env.scaled_features.orD [])

/-- A language's question sequence: its own column when present, else the
English column. -/
def Table.colOrEn (t : Table) (lang : String) : List String :=
  if t.hasCol lang then t.colD lang else t.colD "en"

/-- The questions triple a successful run produces. -/
def questionsTripleOf (env : Env) :
    List (String × List String) × Nat × List String :=
  match env.questions with
  | .ok t => (languages.map (fun l => (l, t.colOrEn l)), t.rows.length,
              languages.filter (fun l => !(t.hasCol l)))
  | _ => ([], 0, [])

/-- One norm table's dict on a non-malformed input. -/
def normsOf : Input (List (Int × List Rat)) → List (Int × List Rat)
  | .ok rows => buildNormDict rows
  | _ => []

/-- The weights matrix on a non-malformed input. -/
def weightsOf : Input (List (List Rat)) → List (List Rat)
  | .ok w => w
  | _ => []

/-- The TSV triple a successful run produces. -/
def tsvOf (env : Env) :
    List (Int × List Rat) × List (Int × List Rat) × List (List Rat) :=
  (normsOf env.meanNorms, normsOf env.sdNorms, weightsOf env.weightsB5)

/-- The scaler params a successful run produces. -/
def scalerOf (env : Env) : Option ScalerRec :=
  match env.scaler with
  | .ok a => some { mean := a.mean.getD [], scale := a.scale.getD [],
                    var := a.var.getD [], n_samples_seen := a.n_samples_seen.getD 0 }
  | _ => none

/-- The document a successful run assembles, as a total function of the
environment. -/
def docOf (env : Env) : FullDoc :=
  assemble env (jobTranslationsOf env) (baseOf env) (questionsTripleOf env)
    (tsvOf env) (scalerOf env)

/-- Whether `load_questions` completes: true when `questions.tsv` is missing
or parses with an `en` column; false when it is malformed or lacks the
English fallback column. -/
def Env.qEnOk (env : Env) : Bool :=
  match env.questions with
  | .ok t => t.hasCol "en"
  | .malformed => false
  | .absent => true

/-- A run that completes: no fatally malformed input, questions loadable, and
the output file writable. -/
def Env.Clean (env : Env) : Prop :=
  env.job_en.okb = true ∧ env.job_zh.okb = true ∧ env.job_es.okb = true ∧
  env.job_fr.okb = true ∧ env.job_ru.okb = true ∧ env.job_ar.okb = true ∧
  env.job_codes.okb = true ∧ env.pca_weights.okb = true ∧
  env.scaled_features.okb = true ∧ env.qEnOk = true ∧
  env.meanNorms.okb = true ∧ env.sdNorms.okb = true ∧
  env.weightsB5.okb = true ∧ env.scaler.okb = true ∧ env.writeOk = true

/-- A condition the top-level handler treats as fatal: an unexpected
exception in assembly (a malformed input whose loader catches only
`FileNotFoundError`) or an unwritable output file. -/
def fatalEnv (env : Env) : Prop :=
  env.job_en = .malformed ∨ env.job_zh = .malformed ∨ env.job_es = .malformed ∨
  env.job_fr = .malformed ∨ env.job_ru = .malformed ∨ env.job_ar = .malformed ∨
  env.job_codes = .malformed ∨ env.pca_weights = .malformed ∨
  env.scaled_features = .malformed ∨ env.questions = .malformed ∨
  env.meanNorms = .malformed ∨ env.sdNorms = .malformed ∨
  env.weightsB5 = .malformed ∨ env.scaler = .malformed ∨ env.writeOk = false

/-- Replace one language's list in a job-translations mapping. -/
def setLang (jts : List (String × List String)) (l : String) (v : List String) :
    List (String × List String) :=
  jts.map (fun p => if p.1 == l then (p.1, v) else p)

/-- A small concrete question table: English and Chinese columns, two rows,
one missing cell. -/
def qTableGood : Table :=
  { header := ["en", "zh"],
    rows := [[some "Q1en", some "Q1zh"], [some "Q2en", none]] }

/-- A concrete environment with every input present and parsable. -/
def envGood : Env :=
  { job_en := .ok ["Accountant", "Baker"],
    job_zh := .ok ["会计", "面包师"],
    job_es := .ok ["Contador", "Panadero"],
    job_fr := .ok ["Comptable", "Boulanger"],
    job_ru := .ok ["Бухгалтер", "Пекарь"],
    job_ar := .ok ["محاسب", "خباز"],
    job_codes := .ok ["13-2011", "51-3011"],
    pca_weights := .ok [[(1 : Rat), 0], [0, 1]],
    scaled_features := .ok [[(1 : Rat), 2, 3, 4, 5], [5, 4, 3, 2, 1]],
    text_dict := .ok (Json.obj [("greeting", Json.str "hi")]),
    language_display := .ok (Json.obj [("en", Json.str "English")]),
    questions := .ok qTableGood,
    meanNorms := .ok [(1, [(3 : Rat), 3, 3, 3, 3]), (2, [(4 : Rat), 4, 4, 4, 4])],
    sdNorms := .ok [(1, [(1 : Rat), 1, 1, 1, 1])],
    weightsB5 := .ok [[(1 : Rat), 0, 0, 0, 0], [0, 1, 0, 0, 0]],
    scaler := .ok { mean := some [(0 : Rat), 0, 0, 0, 0],
                    scale := some [(1 : Rat), 1, 1, 1, 1],
                    var := some [(1 : Rat), 1, 1, 1, 1],
                    n_samples_seen := some 100 },
    writeOk := true,
    timestamp := "2026-10-12T00:00:00" }

/-- `envGood` with the Chinese job list one element short (`N_jobs - 1`). -/
def envShortZh : Env := { envGood with job_zh := .ok ["会计"] }

/-- `envGood` with a present but unparsable `meanNorms.tsv`. -/
def envBadMeanNorms : Env := { envGood with meanNorms := .malformed }

/-- `envGood` with the English job file deleted. -/
def envNoEn : Env := { envGood with job_en := .absent }

theorem loadOrDefault_inv {α : Type} {i : Input α} {dflt x : α}
    (h : loadOrDefault i dflt = some x) : i.okb = true ∧ x = i.orD dflt := by
  cases i <;> simp_all [loadOrDefault, Input.okb, Input.orD]

theorem loadOrDefault_ok {α : Type} {i : Input α} (dflt : α) (h : i.okb = true) :
    loadOrDefault i dflt = some (i.orD dflt) := by
  cases i <;> simp_all [loadOrDefault, Input.okb, Input.orD]

theorem loadQEntries_ok {t : Table} (hen : t.hasCol "en" = true) :
    ∀ L : List String, loadQEntries t L = some (L.map (fun l => (l, t.colOrEn l)))
  | [] => rfl
  | lang :: rest => by
      cases ha : t.hasCol lang <;>
        simp [loadQEntries, ha, hen, loadQEntries_ok hen rest, Table.colOrEn]

theorem load_multilingual_jobs_ok {env : Env}
    (h1 : env.job_en.okb = true) (h2 : env.job_zh.okb = true)
    (h3 : env.job_es.okb = true) (h4 : env.job_fr.okb = true)
    (h5 : env.job_ru.okb = true) (h6 : env.job_ar.okb = true) :
    load_multilingual_jobs env = some (jobTranslationsOf env) := by
  simp [load_multilingual_jobs, loadOrDefault_ok _ h1, loadOrDefault_ok _ h2,
    loadOrDefault_ok _ h3, loadOrDefault_ok _ h4, loadOrDefault_ok _ h5,
    loadOrDefault_ok _ h6, jobTranslationsOf]

theorem load_base_job_data_ok {env : Env}
    (h1 : env.job_codes.okb = true) (h2 : env.pca_weights.okb = true)
    (h3 : env.scaled_features.okb = true) :
    load_base_job_data env = some (baseOf env) := by
  simp [load_base_job_data, loadOrDefault_ok _ h1, loadOrDefault_ok _ h2,
    loadOrDefault_ok _ h3, baseOf]

theorem load_questions_ok {env : Env} (h : env.qEnOk = true) :
    load_questions env = some (questionsTripleOf env) := by
  unfold Env.qEnOk at h
  unfold load_questions questionsTripleOf
  cases hq : env.questions with
  | absent => rfl
  | malformed => rw [hq] at h; simp at h
  | ok t => rw [hq] at h; simp [loadQEntries_ok h]

theorem loadNorms_ok {i : Input (List (Int × List Rat))} (h : i.okb = true) :
    loadNorms i = some (normsOf i) := by
  cases i <;> simp_all [loadNorms, normsOf, Input.okb]

theorem loadWeights_ok {i : Input (List (List Rat))} (h : i.okb = true) :
    loadWeights i = some (weightsOf i) := by
  cases i <;> simp_all [loadWeights, weightsOf, Input.okb]

theorem convert_tsv_files_ok {env : Env}
    (h1 : env.meanNorms.okb = true) (h2 : env.sdNorms.okb = true)
    (h3 : env.weightsB5.okb = true) :
    convert_tsv_files env = some (tsvOf env) := by
  simp [convert_tsv_files, loadNorms_ok h1, loadNorms_ok h2, loadWeights_ok h3, tsvOf]

theorem load_scaler_ok {env : Env} (h : env.scaler.okb = true) :
    load_scaler env = some (scalerOf env) := by
  cases hs : env.scaler with
  | absent => simp [load_scaler, scalerOf, hs]
  | malformed => rw [hs] at h; simp [Input.okb] at h
  | ok a => simp [load_scaler, scalerOf, hs]

theorem convert_clean {env : Env} (h : env.Clean) :
    convert_all_data env = some (docOf env) := by
  obtain ⟨e1, e2, e3, e4, e5, e6, e7, e8, e9, e10, e11, e12, e13, e14, e15⟩ := h
  simp [convert_all_data, load_multilingual_jobs_ok e1 e2 e3 e4 e5 e6,
    load_base_job_data_ok e7 e8 e9, load_questions_ok e10,
    convert_tsv_files_ok e11 e12 e13, load_scaler_ok e14, e15, docOf]

theorem load_multilingual_jobs_inv {env : Env} {jt : List (String × List String)}
    (h : load_multilingual_jobs env = some jt) :
    env.job_en.okb = true ∧ env.job_zh.okb = true ∧ env.job_es.okb = true ∧
    env.job_fr.okb = true ∧ env.job_ru.okb = true ∧ env.job_ar.okb = true ∧
    jt = jobTranslationsOf env := by
  simp only [load_multilingual_jobs, Option.bind_eq_some, Option.some.injEq] at h
  obtain ⟨en, hen, zh, hzh, es, hes, fr, hfr, ru, hru, ar, har, hfin⟩ := h
  obtain ⟨o1, rfl⟩ := loadOrDefault_inv hen
  obtain ⟨o2, rfl⟩ := loadOrDefault_inv hzh
  obtain ⟨o3, rfl⟩ := loadOrDefault_inv hes
  obtain ⟨o4, rfl⟩ := loadOrDefault_inv hfr
  obtain ⟨o5, rfl⟩ := loadOrDefault_inv hru
  obtain ⟨o6, rfl⟩ := loadOrDefault_inv har
  exact ⟨o1, o2, o3, o4, o5, o6, hfin.symm⟩

theorem load_base_job_data_inv {env : Env}
    {bd : List String × List (List Rat) × List (List Rat)}
    (h : load_base_job_data env = some bd) :
    env.job_codes.okb = true ∧ env.pca_weights.okb = true ∧
    env.scaled_features.okb = true ∧ bd = baseOf env := by
  simp only [load_base_job_data, Option.bind_eq_some, Option.some.injEq] at h
  obtain ⟨c, hc, p, hp, f, hf, hfin⟩ := h
  obtain ⟨o1, rfl⟩ := loadOrDefault_inv hc
  obtain ⟨o2, rfl⟩ := loadOrDefault_inv hp
  obtain ⟨o3, rfl⟩ := loadOrDefault_inv hf
  exact ⟨o1, o2, o3, hfin.symm⟩

theorem load_questions_inv {env : Env}
    {q : List (String × List String) × Nat × List String}
    (h : load_questions env = some q) :
    env.qEnOk = true ∧ q = questionsTripleOf env := by
  unfold load_questions at h
  cases hq : env.questions with
  | absent =>
      rw [hq] at h; simp only [Option.some.injEq] at h
      exact ⟨by simp [Env.qEnOk, hq], by simp [questionsTripleOf, hq, h.symm]⟩
  | malformed => rw [hq] at h; simp at h
  | ok t =>
      rw [hq] at h
      dsimp only at h
      cases hen : t.hasCol "en" with
      | false => simp [languages, loadQEntries, hen] at h
      | true =>
          rw [loadQEntries_ok hen] at h
          simp only [Option.map_some', Option.some.injEq] at h
          refine ⟨by simp [Env.qEnOk, hq, hen], ?_⟩
          simp [questionsTripleOf, hq, h.symm]

theorem loadNorms_inv {i : Input (List (Int × List Rat))}
    {x : List (Int × List Rat)} (h : loadNorms i = some x) :
    i.okb = true ∧ x = normsOf i := by
  cases i <;> simp_all [loadNorms, normsOf, Input.okb]

theorem loadWeights_inv {i : Input (List (List Rat))}
    {x : List (List Rat)} (h : loadWeights i = some x) :
    i.okb = true ∧ x = weightsOf i := by
  cases i <;> simp_all [loadWeights, weightsOf, Input.okb]

theorem convert_tsv_files_inv {env : Env}
    {tsv : List (Int × List Rat) × List (Int × List Rat) × List (List Rat)}
    (h : convert_tsv_files env = some tsv) :
    env.meanNorms.okb = true ∧ env.sdNorms.okb = true ∧
    env.weightsB5.okb = true ∧ tsv = tsvOf env := by
  simp only [convert_tsv_files, Option.bind_eq_some, Option.some.injEq] at h
  obtain ⟨mn, hmn, sdn, hsdn, w, hw, hfin⟩ := h
  obtain ⟨o1, rfl⟩ := loadNorms_inv hmn
  obtain ⟨o2, rfl⟩ := loadNorms_inv hsdn
  obtain ⟨o3, rfl⟩ := loadWeights_inv hw
  exact ⟨o1, o2, o3, hfin.symm⟩

theorem load_scaler_inv {env : Env} {sp : Option ScalerRec}
    (h : load_scaler env = some sp) :
    env.scaler.okb = true ∧ sp = scalerOf env := by
  unfold load_scaler at h
  cases hs : env.scaler with
  | absent => rw [hs] at h; simp only [Option.some.injEq] at h
              exact ⟨by simp [hs, Input.okb], by simp [scalerOf, hs, h.symm]⟩
  | malformed => rw [hs] at h; simp at h
  | ok a => rw [hs] at h; simp only [Option.some.injEq] at h
            exact ⟨by simp [hs, Input.okb], by simp [scalerOf, hs, h.symm]⟩

theorem convert_some_inv {env : Env} {d : FullDoc}
    (h : convert_all_data env = some d) :
    env.Clean ∧ d = docOf env := by
  simp only [convert_all_data, Option.bind_eq_some] at h
  obtain ⟨jt, hjt, bd, hbd, q, hq, tsv, htsv, sp, hsp, hfin⟩ := h
  obtain ⟨e1, e2, e3, e4, e5, e6, rfl⟩ := load_multilingual_jobs_inv hjt
  obtain ⟨e7, e8, e9, rfl⟩ := load_base_job_data_inv hbd
  obtain ⟨e10, rfl⟩ := load_questions_inv hq
  obtain ⟨e11, e12, e13, rfl⟩ := convert_tsv_files_inv htsv
  obtain ⟨e14, rfl⟩ := load_scaler_inv hsp
  cases hw : env.writeOk with
  | false => rw [hw] at hfin; simp at hfin
  | true =>
      rw [hw] at hfin
      simp only [if_true, Option.some.injEq] at hfin
      exact ⟨⟨e1, e2, e3, e4, e5, e6, e7, e8, e9, e10, e11, e12, e13, e14, hw⟩,
        hfin.symm⟩

theorem colD_length {t : Table} {n : String} (hn : t.hasCol n = true) :
    (t.colD n).length = t.rows.length := by
  unfold Table.hasCol at hn
  unfold Table.colD
  cases hi : t.colIdx n with
  | none => rw [hi] at hn; simp at hn
  | some i => simp

theorem compact_meta_nq (j : Json) :
    ((createCompact j).getDf "metadata" (Json.obj [])).getDf "n_questions" Json.null
      = Json.num ((((j.getDf "questions" (Json.obj [])).getDf "en" (Json.arr [])).arrLen : Rat)) :=
  rfl

theorem dump_get_questions (d : FullDoc) :
    (dumpFullDoc d).getDf "questions" (Json.obj []) =
      Json.obj (d.questions.map (fun p => (p.1, Json.arr (p.2.map Json.str)))) :=
  rfl

/-- C1 (counterexample): on a document whose Chinese job list has length
`N_jobs - 1` (here 1 against `N_jobs = 2`), the validation step of
`convert_all_data` reports the single aggregated boolean `false` for the
whole job-translations check; the claim's predicted per-language report
(`specPerLanguageJobCheck`, modelled from the claim's words) would instead
report success for `en`, `es`, `fr`, `ru`, `ar` and failure only for `zh`.
The program emits one boolean, not per-language verdicts, so it does not
"report success for every other language". -/
theorem C1_counterexample :
    validateJobTranslations (docOf envShortZh) = false ∧
    specPerLanguageJobCheck (docOf envShortZh) =
      [("en", true), ("zh", false), ("es", true), ("fr", true), ("ru", true),
       ("ar", true)] := by
  constructor <;> rfl

/-- C1 (amended): the validator performs one aggregated job-translations
check, `all(len(v) == n_jobs for v in job_translations.values())`: it reports
`true` exactly when every language's list has length `docNJobs` (the length
of the English list). A document in which exactly one language's list is one
element short therefore makes this single check report failure; no
per-language verdicts are emitted. -/
theorem C1_amended_aggregate_check (d : FullDoc) :
    validateJobTranslations d = true ↔
      ∀ p ∈ d.job_translations, p.2.length = docNJobs d := by
  simp [validateJobTranslations, List.all_eq_true, beq_iff_eq]

/-- Witness for C1 (amended) at a concrete consistent document. -/
theorem C1_amended_witness :
    validateJobTranslations (docOf envGood) = true :=
  (C1_amended_aggregate_check (docOf envGood)).mpr (by decide)

/-- C2 (counterexample): with `meanNorms.tsv` present but unparsable (all
other inputs fine), the run produces neither output file — the parse error
escapes `convert_tsv_files` (which catches only `FileNotFoundError`), is
caught by the top-level handler, and `convert_all_data` returns `None`, so
no full file is written and the compact step never runs. This contradicts
the claim that a parse failure degrades to the empty default with both
outputs still produced. -/
theorem C2_counterexample :
    envBadMeanNorms.meanNorms = Input.malformed ∧
    (mainRun envBadMeanNorms).fullFile = none ∧
    (mainRun envBadMeanNorms).compactFile = none :=
  ⟨rfl, rfl, rfl⟩

/-- C2 (amended): a parse failure in `questions.tsv` or any of the three
tab-separated tables aborts the whole run with no outputs (only a missing
file degrades to the documented empty default); by contrast the two
auxiliary `.npy` mappings are guarded by a bare `except:` and degrade to
`{}` on any error, malformed included. -/
theorem C2_amended_parse_error_aborts (env : Env) :
    ((env.questions = Input.malformed ∨ env.meanNorms = Input.malformed ∨
      env.sdNorms = Input.malformed ∨ env.weightsB5 = Input.malformed) →
      convert_all_data env = none ∧
      mainRun env = { fullFile := none, compactAttempted := false,
                      compactFile := none }) ∧
    (∀ d, convert_all_data env = some d → env.text_dict = Input.malformed →
      d.text_dict = Json.obj []) ∧
    (∀ d, convert_all_data env = some d →
      env.language_display = Input.malformed →
      d.language_display = Json.obj []) := by
  refine ⟨?_, ?_, ?_⟩
  · intro hf
    cases hc : convert_all_data env with
    | none => exact ⟨rfl, by simp [mainRun, hc]⟩
    | some d =>
        exfalso
        obtain ⟨⟨e1, e2, e3, e4, e5, e6, e7, e8, e9, e10, e11, e12, e13, e14, e15⟩, -⟩ :=
          convert_some_inv hc
        rcases hf with hf|hf|hf|hf <;> simp_all [Input.okb, Env.qEnOk]
  · intro d hd ht
    obtain ⟨-, rfl⟩ := convert_some_inv hd
    simp [docOf, assemble, load_other_files, ht, Input.orD]
  · intro d hd hl
    obtain ⟨-, rfl⟩ := convert_some_inv hd
    simp [docOf, assemble, load_other_files, hl, Input.orD]

/-- Witness for C2 (amended): the malformed-`meanNorms` environment aborts
with no outputs. -/
theorem C2_amended_witness :
    convert_all_data envBadMeanNorms = none ∧
    mainRun envBadMeanNorms =
      { fullFile := none, compactAttempted := false, compactFile := none } :=
  (C2_amended_parse_error_aborts envBadMeanNorms).1 (Or.inr (Or.inl rfl))

/-- C4: in every successful run, `metadata.n_jobs` equals the length of the
English job-translation sequence (the `[]` default, hence 0, when
`job_en.npy` is absent; the file's list length when present) and
`metadata.languages_available` equals exactly the keys of
`job_translations`; both are recomputed at assembly, overriding the static
`n_jobs: 263` placeholder of `get_metadata`. -/
theorem C4_metadata_recomputed (env : Env) (d : FullDoc)
    (h : convert_all_data env = some d) :
    d.metadata.n_jobs = ((d.job_translations.lookup "en").getD []).length ∧
    (env.job_en = Input.absent → d.metadata.n_jobs = 0) ∧
    (∀ l, env.job_en = Input.ok l → d.metadata.n_jobs = l.length) ∧
    d.metadata.languages_available = d.job_translations.map Prod.fst := by
  obtain ⟨-, rfl⟩ := convert_some_inv h
  refine ⟨rfl, ?_, ?_, rfl⟩
  · intro ha
    simp [docOf, assemble, jobTranslationsOf, ha, Input.orD, List.lookup]
  · intro l hl
    simp [docOf, assemble, jobTranslationsOf, hl, Input.orD, List.lookup]

/-- Witness for C4 at a concrete environment (note `n_jobs = 2 ≠ 263`, the
static placeholder). -/
theorem C4_witness :
    ((docOf envGood).metadata.n_jobs =
      (((docOf envGood).job_translations.lookup "en").getD []).length ∧
    (envGood.job_en = Input.absent → (docOf envGood).metadata.n_jobs = 0) ∧
    (∀ l, envGood.job_en = Input.ok l →
      (docOf envGood).metadata.n_jobs = l.length) ∧
    (docOf envGood).metadata.languages_available =
      (docOf envGood).job_translations.map Prod.fst) ∧
    (docOf envGood).metadata.n_jobs = 2 :=
  ⟨C4_metadata_recomputed envGood (docOf envGood) rfl, rfl⟩

/-- C8: a fatal condition — any input whose loader catches only
`FileNotFoundError` being malformed, or an unwritable output file — makes
`convert_all_data` return `None` (after printing the traceback), and the
`__main__` block then skips the compact step entirely; conversely the
compact step is attempted exactly when the full conversion succeeded. -/
theorem C8_fatal_skips_compact (env : Env) :
    (fatalEnv env → mainRun env =
      { fullFile := none, compactAttempted := false, compactFile := none }) ∧
    ((mainRun env).compactAttempted = true ↔
      (convert_all_data env).isSome = true) := by
  constructor
  · intro hf
    cases hc : convert_all_data env with
    | none => simp [mainRun, hc]
    | some d =>
        exfalso
        obtain ⟨⟨e1, e2, e3, e4, e5, e6, e7, e8, e9, e10, e11, e12, e13, e14, e15⟩, -⟩ :=
          convert_some_inv hc
        rcases hf with hf|hf|hf|hf|hf|hf|hf|hf|hf|hf|hf|hf|hf|hf|hf <;>
          simp_all [Input.okb, Env.qEnOk]
  · cases hc : convert_all_data env <;> simp [mainRun, hc]

/-- Witness for C8: the malformed-`meanNorms` environment is fatal and the
compact step is not attempted. -/
theorem C8_witness :
    mainRun envBadMeanNorms =
      { fullFile := none, compactAttempted := false, compactFile := none } :=
  (C8_fatal_skips_compact envBadMeanNorms).1
    (Or.inr (Or.inr (Or.inr (Or.inr (Or.inr (Or.inr (Or.inr (Or.inr (Or.inr
      (Or.inr (Or.inl rfl)))))))))))

/-- C9: whatever combination of job files exists, a successful run's
`job_translations` has exactly the six keys `en, zh, es, fr, ru, ar` in that
fixed order (absent files contribute empty lists), and
`metadata.languages_available` is that same six-element list. -/
theorem C9_six_languages (env : Env) (d : FullDoc)
    (h : convert_all_data env = some d) :
    d.job_translations.map Prod.fst = ["en", "zh", "es", "fr", "ru", "ar"] ∧
    d.metadata.languages_available = ["en", "zh", "es", "fr", "ru", "ar"] := by
  obtain ⟨-, rfl⟩ := convert_some_inv h
  exact ⟨rfl, rfl⟩

/-- Witness for C9 at a concrete environment missing the English job file:
the key set is still all six languages. -/
theorem C9_witness :
    convert_all_data envNoEn = some (docOf envNoEn) ∧
    (docOf envNoEn).job_translations.map Prod.fst =
      ["en", "zh", "es", "fr", "ru", "ar"] ∧
    (docOf envNoEn).metadata.languages_available =
      ["en", "zh", "es", "fr", "ru", "ar"] :=
  ⟨rfl, C9_six_languages envNoEn (docOf envNoEn) rfl⟩

/-- C5: if `questions.tsv` parses and has an `en` column but no column for a
supported language `X`, then the loaded `questions[X]` equals
`questions["en"]` (both are the English column after `fillna('')`), and `X`
is among the languages for which the English fallback was logged. -/
theorem C5_question_fallback (env : Env) (t : Table) (X : String)
    (hq : env.questions = Input.ok t) (hen : t.hasCol "en" = true)
    (hX : X ∈ languages) (hmiss : t.hasCol X = false) :
    (load_questions env).map
      (fun r => ((r.1.lookup X).getD [], (r.1.lookup "en").getD []))
      = some (t.colD "en", t.colD "en") ∧
    (load_questions env).map (fun r => r.2.2)
      = some (languages.filter (fun l => !(t.hasCol l))) ∧
    X ∈ languages.filter (fun l => !(t.hasCol l)) := by
  have hload : load_questions env = some (questionsTripleOf env) :=
    load_questions_ok (by simp [Env.qEnOk, hq, hen])
  refine ⟨?_, ?_, ?_⟩
  · rw [hload]
    simp only [Option.map_some', Option.some.injEq]
    unfold questionsTripleOf
    rw [hq]
    simp only [languages, List.map_cons, List.map_nil]
    have hce : t.colOrEn "en" = t.colD "en" := by
      unfold Table.colOrEn; simp
    fin_cases hX <;> simp_all [List.lookup, Table.colOrEn, hmiss]
  · rw [hload]
    unfold questionsTripleOf
    rw [hq]
    rfl
  · simp [List.mem_filter, hX, hmiss]

/-- Witness for C5: `envGood`'s question table has `en` and `zh` columns
only, so `es` falls back to English. -/
theorem C5_witness :
    ((load_questions envGood).map
      (fun r => ((r.1.lookup "es").getD [], (r.1.lookup "en").getD []))
      = some (qTableGood.colD "en", qTableGood.colD "en") ∧
    (load_questions envGood).map (fun r => r.2.2)
      = some (languages.filter (fun l => !(qTableGood.hasCol l))) ∧
    "es" ∈ languages.filter (fun l => !(qTableGood.hasCol l))) :=
  C5_question_fallback envGood qTableGood "es" rfl rfl (by decide) rfl

/-- C6 (counterexample): deleting only `job_en.npy` from an otherwise
complete environment leaves the run successful, but — besides
`job_translations["en"]` becoming `[]` — it also changes the separate
top-level field `job_names` (the English alias) from `["Accountant",
"Baker"]` to `[]` and `metadata.n_jobs` from 2 to 0, refuting "every other
output field is unaffected". -/
theorem C6_counterexample :
    (convert_all_data envGood).map FullDoc.job_names =
      some ["Accountant", "Baker"] ∧
    (convert_all_data envNoEn).map FullDoc.job_names = some [] ∧
    (convert_all_data envGood).map (fun d => d.metadata.n_jobs) = some 2 ∧
    (convert_all_data envNoEn).map (fun d => d.metadata.n_jobs) = some 0 ∧
    (["Accountant", "Baker"] : List String) ≠ [] :=
  ⟨rfl, rfl, rfl, rfl, by decide⟩

/-- The field-level effect of deleting each single optional input from an
environment: the corresponding field takes its documented empty default and
every other field of the produced document is unchanged, except for the two
derived fields of the English job list (`job_names`, `metadata.n_jobs`) and
the question count (`metadata.n_questions`). -/
def removalBehavior (env : Env) : Prop :=
  convert_all_data { env with job_en := .absent } =
    (convert_all_data env).map (fun d =>
      { d with job_translations := setLang d.job_translations "en" [],
               job_names := [],
               metadata := { d.metadata with n_jobs := 0 } }) ∧
  convert_all_data { env with job_zh := .absent } =
    (convert_all_data env).map (fun d =>
      { d with job_translations := setLang d.job_translations "zh" [] }) ∧
  convert_all_data { env with job_es := .absent } =
    (convert_all_data env).map (fun d =>
      { d with job_translations := setLang d.job_translations "es" [] }) ∧
  convert_all_data { env with job_fr := .absent } =
    (convert_all_data env).map (fun d =>
      { d with job_translations := setLang d.job_translations "fr" [] }) ∧
  convert_all_data { env with job_ru := .absent } =
    (convert_all_data env).map (fun d =>
      { d with job_translations := setLang d.job_translations "ru" [] }) ∧
  convert_all_data { env with job_ar := .absent } =
    (convert_all_data env).map (fun d =>
      { d with job_translations := setLang d.job_translations "ar" [] }) ∧
  convert_all_data { env with job_codes := .absent } =
    (convert_all_data env).map (fun d => { d with job_codes := [] }) ∧
  convert_all_data { env with pca_weights := .absent } =
    (convert_all_data env).map (fun d => { d with pca_weights := [] }) ∧
  convert_all_data { env with scaled_features := .absent } =
    (convert_all_data env).map (fun d => { d with scaled_features := [] }) ∧
  convert_all_data { env with text_dict := .absent } =
    (convert_all_data env).map (fun d => { d with text_dict := Json.obj [] }) ∧
  convert_all_data { env with language_display := .absent } =
    (convert_all_data env).map (fun d =>
      { d with language_display := Json.obj [] }) ∧
  convert_all_data { env with questions := .absent } =
    (convert_all_data env).map (fun d =>
      { d with questions := [],
               metadata := { d.metadata with n_questions := 0 } }) ∧
  convert_all_data { env with meanNorms := .absent } =
    (convert_all_data env).map (fun d => { d with mean_norms := [] }) ∧
  convert_all_data { env with sdNorms := .absent } =
    (convert_all_data env).map (fun d => { d with sd_norms := [] }) ∧
  convert_all_data { env with weightsB5 := .absent } =
    (convert_all_data env).map (fun d => { d with weights := [] }) ∧
  convert_all_data { env with scaler := .absent } =
    (convert_all_data env).map (fun d => { d with scaler_params := none })

/-- C6 (amended): deleting any single optional input never crashes the run;
the corresponding output field takes its documented empty default (`[]`,
`{}`, or `none` for the scaler params) and every other field is unchanged —
except that deleting `job_en.npy` additionally resets the derived alias
`job_names` to `[]` and `metadata.n_jobs` to 0, and deleting
`questions.tsv` additionally resets `metadata.n_questions` to 0. -/
theorem C6_amended_removal (env : Env) (h : env.Clean) :
    removalBehavior env := by
  obtain ⟨e1, e2, e3, e4, e5, e6, e7, e8, e9, e10, e11, e12, e13, e14, e15⟩ := h
  have h0 : env.Clean :=
    ⟨e1, e2, e3, e4, e5, e6, e7, e8, e9, e10, e11, e12, e13, e14, e15⟩
  refine ⟨?_, ?_, ?_, ?_, ?_, ?_, ?_, ?_, ?_, ?_, ?_, ?_, ?_, ?_, ?_, ?_⟩
  · rw [convert_clean (⟨rfl, e2, e3, e4, e5, e6, e7, e8, e9, e10, e11, e12, e13, e14, e15⟩ :
      ({ env with job_en := .absent } : Env).Clean), convert_clean h0]; rfl
  · rw [convert_clean (⟨e1, rfl, e3, e4, e5, e6, e7, e8, e9, e10, e11, e12, e13, e14, e15⟩ :
      ({ env with job_zh := .absent } : Env).Clean), convert_clean h0]; rfl
  · rw [convert_clean (⟨e1, e2, rfl, e4, e5, e6, e7, e8, e9, e10, e11, e12, e13, e14, e15⟩ :
      ({ env with job_es := .absent } : Env).Clean), convert_clean h0]; rfl
  · rw [convert_clean (⟨e1, e2, e3, rfl, e5, e6, e7, e8, e9, e10, e11, e12, e13, e14, e15⟩ :
      ({ env with job_fr := .absent } : Env).Clean), convert_clean h0]; rfl
  · rw [convert_clean (⟨e1, e2, e3, e4, rfl, e6, e7, e8, e9, e10, e11, e12, e13, e14, e15⟩ :
      ({ env with job_ru := .absent } : Env).Clean), convert_clean h0]; rfl
  · rw [convert_clean (⟨e1, e2, e3, e4, e5, rfl, e7, e8, e9, e10, e11, e12, e13, e14, e15⟩ :
      ({ env with job_ar := .absent } : Env).Clean), convert_clean h0]; rfl
  · rw [convert_clean (⟨e1, e2, e3, e4, e5, e6, rfl, e8, e9, e10, e11, e12, e13, e14, e15⟩ :
      ({ env with job_codes := .absent } : Env).Clean), convert_clean h0]; rfl
  · rw [convert_clean (⟨e1, e2, e3, e4, e5, e6, e7, rfl, e9, e10, e11, e12, e13, e14, e15⟩ :
      ({ env with pca_weights := .absent } : Env).Clean), convert_clean h0]; rfl
  · rw [convert_clean (⟨e1, e2, e3, e4, e5, e6, e7, e8, rfl, e10, e11, e12, e13, e14, e15⟩ :
      ({ env with scaled_features := .absent } : Env).Clean), convert_clean h0]; rfl
  · rw [convert_clean (⟨e1, e2, e3, e4, e5, e6, e7, e8, e9, e10, e11, e12, e13, e14, e15⟩ :
      ({ env with text_dict := .absent } : Env).Clean), convert_clean h0]; rfl
  · rw [convert_clean (⟨e1, e2, e3, e4, e5, e6, e7, e8, e9, e10, e11, e12, e13, e14, e15⟩ :
      ({ env with language_display := .absent } : Env).Clean), convert_clean h0]; rfl
  · rw [convert_clean (⟨e1, e2, e3, e4, e5, e6, e7, e8, e9, rfl, e11, e12, e13, e14, e15⟩ :
      ({ env with questions := .absent } : Env).Clean), convert_clean h0]; rfl
  · rw [convert_clean (⟨e1, e2, e3, e4, e5, e6, e7, e8, e9, e10, rfl, e12, e13, e14, e15⟩ :
      ({ env with meanNorms := .absent } : Env).Clean), convert_clean h0]; rfl
  · rw [convert_clean (⟨e1, e2, e3, e4, e5, e6, e7, e8, e9, e10, e11, rfl, e13, e14, e15⟩ :
      ({ env with sdNorms := .absent } : Env).Clean), convert_clean h0]; rfl
  · rw [convert_clean (⟨e1, e2, e3, e4, e5, e6, e7, e8, e9, e10, e11, e12, rfl, e14, e15⟩ :
      ({ env with weightsB5 := .absent } : Env).Clean), convert_clean h0]; rfl
  · rw [convert_clean (⟨e1, e2, e3, e4, e5, e6, e7, e8, e9, e10, e11, e12, e13, rfl, e15⟩ :
      ({ env with scaler := .absent } : Env).Clean), convert_clean h0]; rfl

/-- Witness for C6 (amended) at the concrete full environment. -/
theorem C6_amended_witness : removalBehavior envGood :=
  C6_amended_removal envGood
    ⟨rfl, rfl, rfl, rfl, rfl, rfl, rfl, rfl, rfl, rfl, rfl, rfl, rfl, rfl, rfl⟩

/-- The fixed whitelist of top-level keys `create_compact_version` retains. -/
def compactWhitelist : List String :=
  ["job_translations", "job_codes", "scaled_features", "pca_weights",
   "questions", "mean_norms", "sd_norms", "weights", "scaler_params"]

/-- Deep agreement of the compact output with the full output on every
whitelisted top-level key and on the two retained `translations` sub-keys. -/
def compactAgreesWithFull (env : Env) (d : FullDoc) : Prop :=
  (mainRun env).fullFile = some (dumpFullDoc d) ∧
  (mainRun env).compactFile = some (createCompact (dumpFullDoc d)) ∧
  (∀ k ∈ compactWhitelist,
    (createCompact (dumpFullDoc d)).get? k = (dumpFullDoc d).get? k) ∧
  ((createCompact (dumpFullDoc d)).get? "translations").bind
      (fun tr => tr.get? "trait_names")
    = ((dumpFullDoc d).get? "translations").bind (fun tr => tr.get? "trait_names") ∧
  ((createCompact (dumpFullDoc d)).get? "translations").bind
      (fun tr => tr.get? "disclaimer")
    = ((dumpFullDoc d).get? "translations").bind (fun tr => tr.get? "disclaimer")

/-- C3: the compact document is produced by applying
`create_compact_version` to the JSON re-read from the just-written full
output file (not to the in-memory object), and for every whitelisted field
present in both outputs — the nine listed top-level keys plus the
`trait_names` and `disclaimer` sub-fields of `translations` — its value in
the compact file is deep-equal to the value in the full file. -/
theorem C3_compact_roundtrip (env : Env) (d : FullDoc)
    (h : convert_all_data env = some d) : compactAgreesWithFull env d := by
  obtain ⟨-, rfl⟩ := convert_some_inv h
  refine ⟨by simp [mainRun, h], by simp [mainRun, h], ?_, rfl, rfl⟩
  intro k hk
  simp only [compactWhitelist, List.mem_cons, List.not_mem_nil, or_false] at hk
  rcases hk with rfl|rfl|rfl|rfl|rfl|rfl|rfl|rfl|rfl <;> rfl

/-- Witness for C3 at the concrete full environment. -/
theorem C3_witness : compactAgreesWithFull envGood (docOf envGood) :=
  C3_compact_roundtrip envGood (docOf envGood) rfl

/-- C7: the full document's `metadata.n_questions` comes from the question
table's row count (`len(questions_df)` returned by `load_questions`), while
the compact document recomputes its `metadata.n_questions` as the length of
the English question sequence of the re-read full JSON — two distinct
derivations, both preserved. -/
theorem C7_nquestions_derivations (env : Env) (t : Table) (d : FullDoc)
    (hq : env.questions = Input.ok t) (h : convert_all_data env = some d) :
    d.metadata.n_questions = t.rows.length ∧
    (mainRun env).compactFile = some (createCompact (dumpFullDoc d)) ∧
    (∀ j : Json,
      ((createCompact j).getDf "metadata" (Json.obj [])).getDf "n_questions"
          Json.null
        = Json.num ((((j.getDf "questions" (Json.obj [])).getDf "en"
            (Json.arr [])).arrLen : Rat))) := by
  obtain ⟨-, rfl⟩ := convert_some_inv h
  refine ⟨?_, by simp [mainRun, h], fun j => compact_meta_nq j⟩
  simp [docOf, assemble, questionsTripleOf, hq]

/-- Witness for C7 at the concrete environment and its question table. -/
theorem C7_witness :
    (docOf envGood).metadata.n_questions = qTableGood.rows.length ∧
    (mainRun envGood).compactFile =
      some (createCompact (dumpFullDoc (docOf envGood))) ∧
    (∀ j : Json,
      ((createCompact j).getDf "metadata" (Json.obj [])).getDf "n_questions"
          Json.null
        = Json.num ((((j.getDf "questions" (Json.obj [])).getDf "en"
            (Json.arr [])).arrLen : Rat))) :=
  C7_nquestions_derivations envGood qTableGood (docOf envGood) rfl rfl

/-- C10: whenever the question table loads (it parses and has an English
column), the assembled `questions` mapping has all six supported languages
in order, every language's sequence has length equal to the table's row
count (cells are strings, missing cells having become `""` — the sequences
are `List String` by construction), and the full `metadata.n_questions` is
that same row count; moreover in every successful run (question table
present or not) the compact file's recomputed `n_questions` equals the full
document's `metadata.n_questions`. -/
theorem C10_questions_invariant (env : Env) (t : Table) (d : FullDoc)
    (hq : env.questions = Input.ok t) (hen : t.hasCol "en" = true)
    (h : convert_all_data env = some d) :
    d.questions.map Prod.fst = languages ∧
    (∀ p ∈ d.questions, p.2.length = t.rows.length) ∧
    d.metadata.n_questions = t.rows.length ∧
    (∀ env2 d2, convert_all_data env2 = some d2 →
      ((createCompact (dumpFullDoc d2)).getDf "metadata"
          (Json.obj [])).getDf "n_questions" Json.null
        = Json.num ((d2.metadata.n_questions : Rat))) := by
  obtain ⟨-, rfl⟩ := convert_some_inv h
  refine ⟨?_, ?_, ?_, ?_⟩
  · simp only [docOf, assemble, questionsTripleOf, hq, List.map_map]
    have hid : (Prod.fst ∘ fun l : String => (l, t.colOrEn l)) = id := rfl
    rw [hid, List.map_id]
  · intro p hp
    simp only [docOf, assemble, questionsTripleOf, hq] at hp
    obtain ⟨l, hl, rfl⟩ := List.mem_map.1 hp
    show (t.colOrEn l).length = t.rows.length
    unfold Table.colOrEn
    cases hc : t.hasCol l with
    | true => simp [colD_length hc]
    | false => simp [colD_length hen]
  · simp [docOf, assemble, questionsTripleOf, hq]
  · intro env2 d2 h2
    obtain ⟨hcl, rfl⟩ := convert_some_inv h2
    obtain ⟨-, -, -, -, -, -, -, -, -, f10, -, -, -, -, -⟩ := hcl
    rw [compact_meta_nq, dump_get_questions]
    have harr : ((Json.obj ((docOf env2).questions.map
        (fun p => (p.1, Json.arr (p.2.map Json.str))))).getDf "en"
          (Json.arr [])).arrLen = (docOf env2).metadata.n_questions := by
      unfold Env.qEnOk at f10
      cases hq2 : env2.questions with
      | absent =>
          simp [docOf, assemble, questionsTripleOf, hq2, Json.getDf, Json.get?,
            Json.arrLen]
      | malformed => rw [hq2] at f10; simp at f10
      | ok t2 =>
          rw [hq2] at f10
          have hce : t2.colOrEn "en" = t2.colD "en" := by
            unfold Table.colOrEn; simp
          simp [docOf, assemble, questionsTripleOf, hq2, languages, Json.getDf,
            Json.get?, List.lookup, Json.arrLen, hce, colD_length f10]
    rw [harr]

/-- Witness for C10 at the concrete environment and its question table. -/
theorem C10_witness :
    (docOf envGood).questions.map Prod.fst = languages ∧
    (∀ p ∈ (docOf envGood).questions, p.2.length = qTableGood.rows.length) ∧
    (docOf envGood).metadata.n_questions = qTableGood.rows.length ∧
    (∀ env2 d2, convert_all_data env2 = some d2 →
      ((createCompact (dumpFullDoc d2)).getDf "metadata"
          (Json.obj [])).getDf "n_questions" Json.null
        = Json.num ((d2.metadata.n_questions : Rat))) :=
  C10_questions_invariant envGood qTableGood (docOf envGood) rfl rfl rfl

end ConvertToJson
